import Mathlib

/-!
Shallow embedding of the sunlight VM configuration core
(`src/vm/src/qemu/vm.rs` and `src/vm/src/qemu/enums.rs`).

Rust `String` is modelled as Lean `String`, `Vec<T>` as `List T`,
`Option<T>` as `Option T`, `i8`/`i16` as `Int`. The `QemuOption` trait
objects stored in the aggregate's `devices`/`drives` vectors range over the
closed catalog of implementors, modelled by the sum type `Device`. A Rust
run-time panic (the `panic!` arm for `Pflash` in `DiskDrive::as_options`,
and the `Option::unwrap` calls on the PCI spoof fields in
`GraphicsAdapter::as_options`) is modelled by returning `none`; rendering
functions that cannot panic return a plain `String`. The `process` field of
`VirtualMachine` (a tokio `Command`) is never read by the embedded code and
is omitted.
-/

/-- Function `bool_to_qemu` from vm.rs: a boolean serializes to the token
"on" when true and "off" when false. -/
def bool_to_qemu (val : Bool) : String :=
  if val then "on" else "off"

/-- Enum `MachineType` from vm.rs. -/
inductive MachineType
| Pc (acpi : Bool) (usb : Bool)
| Q35 (acpi : Bool) (usb : Bool) (hmat : Bool)
deriving DecidableEq

/-- Struct `Cpu` from vm.rs (`core_count` is an `i8`; only stored and
printed, so `Int` is faithful for the values the program constructs). -/
structure Cpu where
  model : String
  features : List String
  core_count : Int
deriving DecidableEq

/-- Struct `Memory` from vm.rs. -/
structure Memory where
  size : String
  prealloc : Bool
deriving DecidableEq

/-- Enum `DiskInterface` from vm.rs. -/
inductive DiskInterface
| Ide
| Scsi
deriving DecidableEq

/-- Enum `DiskDrive` from vm.rs. -/
inductive DiskDrive
| CdDrive (interface : DiskInterface) (id : String)
| HdDrive (id : String) (interface : DiskInterface) (image_path : String)
    (readonly : Bool) (format : String) (ssd : Bool)
    (cache : Option String) (aio : Option String)
| Pflash (id : String) (image_path : String) (readonly : Bool) (format : String)
deriving DecidableEq

/-- Enum `DiskController` from vm.rs. -/
inductive DiskController
| VirtioScsi (id : String)
deriving DecidableEq

/-- Enum `GraphicsAdapter` from vm.rs. -/
inductive GraphicsAdapter
| StdVga (ram_size_mb : Int)
| CirrusVga (ram_size_mb : Int)
| QxlVga
| VgpuVga (uuid : String) (use_ramfb : Bool)
    (pci_vendor_id pci_device_id pci_sub_vendor_id pci_sub_device_id : Option String)
deriving DecidableEq

/-- Enum `Network` from vm.rs. -/
inductive Network
| User (id : String)
| Tap (id : String) (dev : String)
deriving DecidableEq

/-- Enum `NetworkAdapter` from vm.rs. -/
inductive NetworkAdapter
| Virtio (id : String) (netdev : String) (mac : Option String)
| Rtl8139 (id : String) (netdev : String) (mac : Option String)
deriving DecidableEq

/-- Enum `VMCreateError` from enums.rs. -/
inductive VMCreateError
| InvalidName
deriving DecidableEq

/-- Enum `VMQemuProcessStartError` from enums.rs (the `IoError` variant
wraps `std::io::Error` values that never arise in the embedded code and is
omitted). -/
inductive VMQemuProcessStartError
| NoMachineType
| ErrorBuildingCommandLine
deriving DecidableEq

/-- The closed catalog of `QemuOption` implementors that can be boxed into
the aggregate's `devices`/`drives` vectors (`Box<dyn QemuOption>`). -/
inductive Device
| machineT (m : MachineType)
| cpu (c : Cpu)
| memory (m : Memory)
| controller (c : DiskController)
| drive (d : DiskDrive)
| graphics (g : GraphicsAdapter)
| network (n : Network)
| netAdapter (n : NetworkAdapter)
deriving DecidableEq

/-- Struct `VirtualMachine` from vm.rs, without the never-read `process`
field. -/
structure VirtualMachine where
  name : String
  uuid : Option String
  machine : Option MachineType
  devices : List Device
  drives : List Device
deriving DecidableEq

/-- Impl `QemuOption for MachineType`, `as_options`. -/
def MachineType.as_options : MachineType → String
| .Pc acpi usb =>
    "-machine pc,acpi=" ++ bool_to_qemu acpi ++ ",usb=" ++ bool_to_qemu usb
| .Q35 acpi usb hmat =>
    "-machine q35,acpi=" ++ bool_to_qemu acpi ++ ",usb=" ++ bool_to_qemu usb
      ++ ",hmat=" ++ bool_to_qemu hmat
      ++ " -device ioh3420,id=vm.pcie_root,slot=0,bus=pcie.0"

/-- Impl `QemuOption for Cpu`, `as_options`. -/
def Cpu.as_options (c : Cpu) : String :=
  if c.features.isEmpty then
    "-cpu " ++ c.model ++ " -smp cores=" ++ toString c.core_count
  else
    "-cpu " ++ c.model ++ "," ++ String.intercalate "," c.features
      ++ " -smp cores=" ++ toString c.core_count

/-- Impl `QemuOption for Memory`, `as_options`. -/
def Memory.as_options (m : Memory) : String :=
  if m.prealloc then
    "-m " ++ m.size ++ " -mem-prealloc"
  else
    "-m " ++ m.size

/-- Impl `QemuOption for DiskController`, `as_options`. -/
def DiskController.as_options : DiskController → String
| .VirtioScsi id =>
    "-object iothread,id=vm." ++ id
      ++ ".block_thread -device virtio-scsi-pci,num_queues=6,iothread=vm."
      ++ id ++ ".block_thread,id=vm." ++ id

/-- Impl `QemuOption for DiskDrive`, `as_options`. The `Pflash` variant
falls into the catch-all `panic!` arm of the Rust match, modelled as
`none`. -/
def DiskDrive.as_options : DiskDrive → Option String
| .CdDrive interface id =>
    match interface with
    | .Ide =>
        some ("-drive if=none,media=cdrom,aio=io_uring,id=" ++ id
          ++ " -device ide-cd,drive=" ++ id ++ ",id=" ++ id ++ ".drive")
    | .Scsi =>
        some ("-drive if=none,media=cdrom,aio=io_uring,id=" ++ id
          ++ " -device scsi-cd,drive=" ++ id ++ ",id=" ++ id ++ ".drive")
| .HdDrive id interface image_path readonly format ssd cache aio =>
    let drive_str :=
      "-drive if=none,file=" ++ image_path ++ ",format=" ++ format
        ++ ",id=vm." ++ id ++ ".drive,readonly=" ++ bool_to_qemu readonly
    let drive_str :=
      match cache with
      | some str => drive_str ++ ",cache=" ++ str
      | _ => drive_str
    let drive_str :=
      match aio with
      | some str => drive_str ++ ",aio=" ++ str
      | _ => drive_str
    let opts_str := "id=vm." ++ id ++ ",drive=vm." ++ id ++ ".drive"
    let opts_str := if ssd then opts_str ++ ",rotation_rate=1" else opts_str
    match interface with
    | .Ide => some (drive_str ++ " -device ide-hd," ++ opts_str)
    | .Scsi => some (drive_str ++ " -device scsi-hd," ++ opts_str)
| .Pflash _ _ _ _ => none

/-- Impl `QemuOption for GraphicsAdapter`, `as_options`. In the `VgpuVga`
case the Rust code takes the spoofed-ID branch when `pci_vendor_id` is
`Some` and then calls `unwrap()` on all four optional fields, binding
`vid` to `pci_device_id` and `pid` to `pci_vendor_id`; an `unwrap` of a
`None` field is a panic, modelled as `none`. -/
def GraphicsAdapter.as_options : GraphicsAdapter → Option String
| .StdVga ram_size_mb =>
    some ("-device VGA,vgamem_mb=" ++ toString ram_size_mb ++ ",id=vm.vga")
| .CirrusVga ram_size_mb =>
    some ("-device cirrus-vga,vgamem_mb=" ++ toString ram_size_mb ++ ",id=vm.vga")
| .QxlVga => some "-device qxl-vga,id=vm.vga"
| .VgpuVga uuid use_ramfb pci_vendor_id pci_device_id pci_sub_vendor_id pci_sub_device_id =>
    let path := "/sys/bus/mdev/devices/" ++ uuid
    if pci_vendor_id.isSome then
      match pci_device_id, pci_vendor_id, pci_sub_vendor_id, pci_sub_device_id with
      | some vid, some pid, some subvid, some subpid =>
          some ("-device vfio-pci-nohotplug,sysfsdev=" ++ path
            ++ ",display=on,ramfb=" ++ bool_to_qemu use_ramfb
            ++ ",id=vm.vgpu,bus=vm.pcie_root,addr=0x0,x-pci-vendor-id=" ++ vid
            ++ ",x-pci-device-id=" ++ pid
            ++ ",x-pci-sub-vendor-id=" ++ subvid
            ++ ",x-pci-sub-device-id=" ++ subpid)
      | _, _, _, _ => none
    else
      some ("-device vfio-pci-nohotplug,sysfsdev=" ++ path
        ++ ",display=on,ramfb=" ++ bool_to_qemu use_ramfb
        ++ ",id=vm.vgpu,bus=vm.pcie_root,addr=0x0")

/-- Impl `QemuOption for Network`, `as_options`. -/
def Network.as_options : Network → String
| .User id => "-netdev user,id=vm." ++ id
| .Tap id dev =>
    "-netdev tap,vhost=on,script=no,downscript=no,ifname=" ++ dev ++ ",id=vm." ++ id

/-- Impl `QemuOption for NetworkAdapter`, `as_options`. -/
def NetworkAdapter.as_options : NetworkAdapter → String
| .Virtio id netdev mac =>
    let base := "-device virtio-net-pci,id=vm." ++ id ++ ",netdev=vm." ++ netdev
    match mac with
    | some addr => base ++ ",mac=" ++ addr
    | _ => base
| .Rtl8139 id netdev mac =>
    let base := "-device rtl8139,id=vm." ++ id ++ ",netdev=vm." ++ netdev
    match mac with
    | some addr => base ++ ",mac=" ++ addr
    | _ => base

/-- Impl `QemuOption for Cpu`, `validate`: fails when the model string is
empty. -/
def Cpu.validate (c : Cpu) (_machine : VirtualMachine) : Bool :=
  !c.model.isEmpty

/-- Impl `QemuOption for GraphicsAdapter`, `validate`. Only `VgpuVga`
overrides the default. The Rust code evaluates a chipset-compatibility
match whose result is discarded (a statement ending in a semicolon); it is
kept here as the unused `_chipset_ok` binding. -/
def GraphicsAdapter.validate (g : GraphicsAdapter) (machine : VirtualMachine) : Bool :=
  match g with
  | .VgpuVga uuid _ _ _ _ _ =>
      match machine.uuid with
      | none => false
      | some machine_uuid =>
          let _chipset_ok : Bool :=
            match machine.machine with
            | some (.Q35 _ _ _) => true
            | some (.Pc _ _) => false
            | none => false
          if uuid.isEmpty then
            false
          else
            machine_uuid == uuid
  | _ => true

/-- Dynamic dispatch of `as_options` over the boxed catalog. Variants whose
Rust impl cannot panic are wrapped in `some`. -/
def Device.as_options : Device → Option String
| .machineT m => some m.as_options
| .cpu c => some c.as_options
| .memory m => some m.as_options
| .controller c => some c.as_options
| .drive d => d.as_options
| .graphics g => g.as_options
| .network n => some n.as_options
| .netAdapter n => some n.as_options

/-- Dynamic dispatch of `validate` over the boxed catalog; every impl other
than `Cpu` and `GraphicsAdapter` uses the trait's default (always true). -/
def Device.validate : Device → VirtualMachine → Bool
| .cpu c, machine => c.validate machine
| .graphics g, machine => g.validate machine
| _, _ => true

/-- Function `join_options` from vm.rs: maps each boxed option to its
rendering, or to the literal sentinel string when its validation fails. A
panic inside a rendering propagates (`none`). -/
def join_options : List Device → VirtualMachine → Option (List String)
| [], _ => some []
| o :: rest, machine =>
    match (if o.validate machine then o.as_options else some "uh oh system fuck") with
    | none => none
    | some s =>
        match join_options rest machine with
        | none => none
        | some tail => some (s :: tail)

/-- Constructor `VirtualMachine::new`: rejects only names containing the
space character (Rust `name_str.contains(' ')`, a search for one exact
character, modelled over the string's character list). -/
def VirtualMachine.new (name : String) : Except VMCreateError VirtualMachine :=
  if name.data.contains ' ' then
    .error .InvalidName
  else
    .ok { name := name, uuid := none, machine := none, devices := [], drives := [] }

/-- Mutator `VirtualMachine::set_name` (no validation). -/
def VirtualMachine.set_name (vm : VirtualMachine) (name : String) : VirtualMachine :=
  { vm with name := name }

/-- Mutator `VirtualMachine::set_uuid`. -/
def VirtualMachine.set_uuid (vm : VirtualMachine) (uuid : String) : VirtualMachine :=
  { vm with uuid := some uuid }

/-- Mutator `VirtualMachine::set_machine_type` (replaces any previous
selection). -/
def VirtualMachine.set_machine_type (vm : VirtualMachine) (machine : MachineType) : VirtualMachine :=
  { vm with machine := some machine }

/-- Mutator `VirtualMachine::add_device` (appends). -/
def VirtualMachine.add_device (vm : VirtualMachine) (dev : Device) : VirtualMachine :=
  { vm with devices := vm.devices ++ [dev] }

/-- Mutator `VirtualMachine::add_drive` (appends). -/
def VirtualMachine.add_drive (vm : VirtualMachine) (dev : Device) : VirtualMachine :=
  { vm with drives := vm.drives ++ [dev] }

/-- Outcome of `VirtualMachine::to_arguments`: a typed error, a successful
argument vector, or a run-time panic raised by a device rendering. -/
inductive CompileResult
| panicked
| err (e : VMQemuProcessStartError)
| ok (args : List String)
deriving DecidableEq

/-- Method `VirtualMachine::to_arguments` from vm.rs. -/
def VirtualMachine.to_arguments (vm : VirtualMachine) : CompileResult :=
  match vm.machine with
  | none => .err .NoMachineType
  | some machine =>
      let base : List String :=
        ["-nodefaults", "-accel kvm",
         "-name " ++ vm.name ++ ",process=sunlight_" ++ vm.name,
         machine.as_options]
      match join_options vm.devices vm, join_options vm.drives vm with
      | some devs, some drvs => .ok (base ++ devs ++ drvs)
      | _, _ => .panicked

/-- Rendering of one boxed entry inside `join_options`, as seen in a
successful output list: the entry's rendering when it validates, the
literal sentinel string otherwise. -/
def rendered_entry (machine : VirtualMachine) (d : Device) : String :=
  if d.validate machine = true then (d.as_options).getD "" else "uh oh system fuck"

/-- Helper: when every entry that passes validation renders without
panicking, `join_options` succeeds and is the pointwise `rendered_entry`
map. -/
theorem join_options_eq_map (vec : List Device) (machine : VirtualMachine)
    (h : ∀ d ∈ vec, d.validate machine = true → (d.as_options).isSome = true) :
    join_options vec machine = some (vec.map (rendered_entry machine)) := by
  induction vec with
  | nil => rfl
  | cons d rest ih =>
      have hrest : ∀ x ∈ rest, x.validate machine = true → (x.as_options).isSome = true :=
        fun x hx => h x (List.mem_cons_of_mem d hx)
      have htail := ih hrest
      by_cases hv : d.validate machine = true
      · obtain ⟨s, hs⟩ := Option.isSome_iff_exists.mp (h d (List.mem_cons_self d rest) hv)
        simp [join_options, hv, hs, htail, rendered_entry]
      · simp [join_options, hv, htail, rendered_entry]

/-- C1: the claim states that `as_options` totally returns a fragment for
every catalog variant, in particular for every `Pflash` drive and for a
`VgpuVga` adapter with `pci_vendor_id` set while the other spoof fields are
`None`. The code instead reaches the `panic!` catch-all for `Pflash` and
panics on `unwrap()` of an unset spoof field, modelled as `none`: this
theorem evaluates the two renderings at the failing inputs. -/
theorem c1_render_panics :
    DiskDrive.as_options (.Pflash "flash0" "/img.bin" false "raw") = none ∧
    GraphicsAdapter.as_options
      (.VgpuVga "uuid-1" false (some "10de") none none none) = none := by
  constructor
  · rfl
  · rfl

/-- C2 counterexample: the claim says construction fails for every name
containing any whitespace character; a name containing a tab is accepted
by the code, which only searches for the space character. -/
theorem c2_counterexample :
    VirtualMachine.new "a\tb" =
      .ok { name := "a\tb", uuid := none, machine := none,
            devices := [], drives := [] } := by
  rfl

/-- C2 amended: `VirtualMachine::new` fails with `InvalidName` exactly for
names containing the space character; a name with no space character (even
one containing other whitespace such as tab or newline) is accepted and
stored verbatim in the aggregate. -/
theorem c2_amended (name : String) :
    (name.data.contains ' ' = true →
      VirtualMachine.new name = .error .InvalidName) ∧
    (name.data.contains ' ' = false →
      VirtualMachine.new name =
        .ok { name := name, uuid := none, machine := none,
              devices := [], drives := [] }) := by
  constructor
  · intro h
    have h2 : ' ' ∈ name.data := by simpa using h
    simp [VirtualMachine.new, h2]
  · intro h
    have h2 : ' ' ∉ name.data := by simpa using h
    simp [VirtualMachine.new, h2]

/-- C2 amended, witness at concrete names: "a b" (space, rejected) and
"a\tb" (tab only, accepted). -/
theorem c2_amended_witness :
    (("a b" : String).data.contains ' ' = true ∧
      VirtualMachine.new "a b" = .error .InvalidName) ∧
    (("a\tb" : String).data.contains ' ' = false ∧
      VirtualMachine.new "a\tb" =
        .ok { name := "a\tb", uuid := none, machine := none,
              devices := [], drives := [] }) :=
  ⟨⟨by decide, (c2_amended "a b").1 (by decide)⟩,
   ⟨by decide, (c2_amended "a\tb").2 (by decide)⟩⟩

/-- C3: validation of a `VgpuVga` adapter succeeds exactly when the
machine's uuid is set and equals the adapter's non-empty uuid; the machine's
chipset selection never affects the result; every other `GraphicsAdapter`
variant always validates as true. -/
theorem c3_vgpu_validate (u : String) (rf : Bool)
    (p1 p2 p3 p4 : Option String) (vm : VirtualMachine) :
    (GraphicsAdapter.validate (.VgpuVga u rf p1 p2 p3 p4) vm = true ↔
      (vm.uuid = some u ∧ u ≠ "")) ∧
    (∀ mt, GraphicsAdapter.validate (.VgpuVga u rf p1 p2 p3 p4)
        { vm with machine := mt } =
      GraphicsAdapter.validate (.VgpuVga u rf p1 p2 p3 p4) vm) ∧
    (∀ n, GraphicsAdapter.validate (.StdVga n) vm = true) ∧
    (∀ n, GraphicsAdapter.validate (.CirrusVga n) vm = true) ∧
    (GraphicsAdapter.validate .QxlVga vm = true) := by
  refine ⟨?_, ?_, ?_, ?_, ?_⟩
  · cases hm : vm.uuid with
    | none => simp [GraphicsAdapter.validate, hm]
    | some mu =>
        by_cases he : u.isEmpty = true
        · have hu : u = "" := (String.isEmpty_iff u).mp he
          subst hu
          have h0 : ("" : String).isEmpty = true := rfl
          simp [GraphicsAdapter.validate, hm, h0]
        · have hne : u ≠ "" := fun hu => he ((String.isEmpty_iff u).mpr hu)
          simp [GraphicsAdapter.validate, hm, he, hne, beq_iff_eq]
  · intro mt
    cases hm : vm.uuid <;> simp [GraphicsAdapter.validate, hm]
  · intro n
    rfl
  · intro n
    rfl
  · rfl

/-- C3, witness: a machine whose uuid matches the adapter's non-empty uuid
validates as true, under a PC chipset (showing the chipset does not block
validation). -/
theorem c3_vgpu_validate_witness :
    GraphicsAdapter.validate (.VgpuVga "uuid-7" true none none none none)
      { name := "vm0", uuid := some "uuid-7",
        machine := some (.Pc true true), devices := [], drives := [] } = true :=
  (c3_vgpu_validate "uuid-7" true none none none none
      { name := "vm0", uuid := some "uuid-7",
        machine := some (.Pc true true), devices := [], drives := [] }).1.mpr
    ⟨rfl, by decide⟩

/-- Sample boxed device whose validation fails: a CPU with an empty model
string. -/
def sample_cpu_invalid : Device :=
  .cpu { model := "", features := [], core_count := 2 }

/-- Sample boxed device that validates and renders: a 4G memory
configuration. -/
def sample_memory : Device :=
  .memory { size := "4G", prealloc := true }

/-- Sample aggregate with a Q35 chipset and no attached devices. -/
def vm_basic : VirtualMachine :=
  { name := "test", uuid := none, machine := some (.Q35 true true false),
    devices := [], drives := [] }

/-- C4: for every entry whose validation fails, compilation does not fail —
`join_options` succeeds and places the literal sentinel failure string at
that entry's position, while every other entry is rendered normally. -/
theorem c4_join_options_sentinel (vec : List Device) (machine : VirtualMachine)
    (h : ∀ d ∈ vec, d.validate machine = true → (d.as_options).isSome = true) :
    join_options vec machine = some (vec.map (rendered_entry machine)) ∧
    ∀ d ∈ vec, d.validate machine = false →
      rendered_entry machine d = "uh oh system fuck" := by
  refine ⟨join_options_eq_map vec machine h, ?_⟩
  intro d _ hd
  simp [rendered_entry, hd]

/-- C4, witness: a list holding an invalid CPU (empty model) followed by a
valid memory device maps to the sentinel string followed by the normal
rendering. -/
theorem c4_join_options_sentinel_witness :
    (∀ d ∈ [sample_cpu_invalid, sample_memory],
      d.validate vm_basic = true → (d.as_options).isSome = true) ∧
    join_options [sample_cpu_invalid, sample_memory] vm_basic =
      some (List.map (rendered_entry vm_basic) [sample_cpu_invalid, sample_memory]) ∧
    join_options [sample_cpu_invalid, sample_memory] vm_basic =
      some ["uh oh system fuck", "-m 4G -mem-prealloc"] :=
  ⟨by decide,
   (c4_join_options_sentinel [sample_cpu_invalid, sample_memory] vm_basic (by decide)).1,
   by decide⟩

/-- C5: when compilation succeeds, the output is exactly the two fixed
baseline fragments, the name fragment binding the machine name to the
sunlight_<name> process name, the chipset fragment, then one fragment per
device in attachment order, then one fragment per drive in attachment
order. -/
theorem c5_to_arguments_order (vm : VirtualMachine) (mt : MachineType)
    (h1 : vm.machine = some mt)
    (h2 : ∀ d ∈ vm.devices, d.validate vm = true → (d.as_options).isSome = true)
    (h3 : ∀ d ∈ vm.drives, d.validate vm = true → (d.as_options).isSome = true) :
    vm.to_arguments = .ok
      (["-nodefaults", "-accel kvm",
        "-name " ++ vm.name ++ ",process=sunlight_" ++ vm.name,
        mt.as_options]
        ++ vm.devices.map (rendered_entry vm)
        ++ vm.drives.map (rendered_entry vm)) := by
  have hd := join_options_eq_map vm.devices vm h2
  have hr := join_options_eq_map vm.drives vm h3
  simp [VirtualMachine.to_arguments, h1, hd, hr]

/-- Sample aggregate with a Q35 chipset, two devices attached in order and
one drive. -/
def vm_order : VirtualMachine :=
  { name := "test", uuid := none, machine := some (.Q35 true true false),
    devices := [.memory { size := "4G", prealloc := false }, .graphics .QxlVga],
    drives := [.drive (.CdDrive .Scsi "cd")] }

/-- C5, witness: the concrete aggregate `vm_order` compiles to the baseline
fragments, name fragment, chipset fragment, its two device fragments in
order, then its drive fragment. -/
theorem c5_to_arguments_order_witness :
    vm_order.machine = some (.Q35 true true false) ∧
    vm_order.to_arguments = .ok
      (["-nodefaults", "-accel kvm",
        "-name " ++ vm_order.name ++ ",process=sunlight_" ++ vm_order.name,
        (MachineType.Q35 true true false).as_options]
        ++ vm_order.devices.map (rendered_entry vm_order)
        ++ vm_order.drives.map (rendered_entry vm_order)) ∧
    vm_order.to_arguments = .ok
      ["-nodefaults", "-accel kvm", "-name test,process=sunlight_test",
       "-machine q35,acpi=on,usb=on,hmat=off -device ioh3420,id=vm.pcie_root,slot=0,bus=pcie.0",
       "-m 4G", "-device qxl-vga,id=vm.vga",
       "-drive if=none,media=cdrom,aio=io_uring,id=cd -device scsi-cd,drive=cd,id=cd.drive"] :=
  ⟨rfl,
   c5_to_arguments_order vm_order (.Q35 true true false) rfl (by decide) (by decide),
   by decide⟩

/-- Sample aggregate with a chipset set and a Pflash drive attached; the
drive passes the default validation and its rendering then reaches the
`panic!` arm. -/
def vm_pflash : VirtualMachine :=
  { name := "pf", uuid := none, machine := some (.Q35 true true false),
    devices := [], drives := [.drive (.Pflash "p" "/img.bin" false "raw")] }

/-- C6 counterexample: the claim says every aggregate with a chipset set
compiles successfully; this aggregate has a chipset set and `to_arguments`
panics (on the Pflash rendering) instead of succeeding. -/
theorem c6_counterexample :
    vm_pflash.machine = some (.Q35 true true false) ∧
    vm_pflash.to_arguments = .panicked := by
  exact ⟨rfl, by decide⟩

/-- C6 amended: with no chipset set, `to_arguments` fails with
`NoMachineType` regardless of attached devices or drives; with a chipset
set it succeeds provided every attached entry that passes validation
renders without panicking (which excludes validate-passing Pflash drives
and partially spoofed VgpuVga adapters). -/
theorem c6_amended (vm : VirtualMachine) :
    (vm.machine = none → vm.to_arguments = .err .NoMachineType) ∧
    (∀ mt, vm.machine = some mt →
      (∀ d ∈ vm.devices, d.validate vm = true → (d.as_options).isSome = true) →
      (∀ d ∈ vm.drives, d.validate vm = true → (d.as_options).isSome = true) →
      ∃ args, vm.to_arguments = .ok args) := by
  constructor
  · intro h
    simp [VirtualMachine.to_arguments, h]
  · intro mt h1 h2 h3
    refine ⟨["-nodefaults", "-accel kvm",
        "-name " ++ vm.name ++ ",process=sunlight_" ++ vm.name,
        mt.as_options]
        ++ vm.devices.map (rendered_entry vm)
        ++ vm.drives.map (rendered_entry vm), ?_⟩
    have hd := join_options_eq_map vm.devices vm h2
    have hr := join_options_eq_map vm.drives vm h3
    simp [VirtualMachine.to_arguments, h1, hd, hr]

/-- Sample aggregate with devices attached but no chipset selected. -/
def vm_no_machine : VirtualMachine :=
  { name := "nm", uuid := none, machine := none,
    devices := [.memory { size := "1G", prealloc := false }], drives := [] }

/-- C6 amended, witness: a chipset-less aggregate with a device attached
fails with `NoMachineType`, and a chipset-bearing aggregate with renderable
entries compiles to some argument vector. -/
theorem c6_amended_witness :
    vm_no_machine.to_arguments = .err .NoMachineType ∧
    (∃ args, vm_order.to_arguments = .ok args) :=
  ⟨(c6_amended vm_no_machine).1 rfl,
   (c6_amended vm_order).2 (.Q35 true true false) rfl (by decide) (by decide)⟩

/-- Helper: closed form of the HdDrive rendering, exposing the optional
cache and aio clauses, the interface-specific device type and the
ssd-conditional rotation-rate clause. -/
theorem hd_drive_shape (id : String) (interface : DiskInterface)
    (image_path : String) (readonly : Bool) (format : String) (ssd : Bool)
    (cache aio : Option String) :
    DiskDrive.as_options
      (.HdDrive id interface image_path readonly format ssd cache aio) =
      some ("-drive if=none,file=" ++ image_path ++ ",format=" ++ format
        ++ ",id=vm." ++ id ++ ".drive,readonly=" ++ bool_to_qemu readonly
        ++ (match cache with | some c => ",cache=" ++ c | none => "")
        ++ (match aio with | some a => ",aio=" ++ a | none => "")
        ++ (match interface with
            | .Ide => " -device ide-hd,"
            | .Scsi => " -device scsi-hd,")
        ++ "id=vm." ++ id ++ ",drive=vm." ++ id ++ ".drive"
        ++ (if ssd then ",rotation_rate=1" else "")) := by
  cases interface <;> cases cache <;> cases aio <;> cases ssd <;>
    simp only [DiskDrive.as_options, Bool.false_eq_true, if_false, if_true,
      String.append_assoc, String.append_empty]

/-- C7: in the HdDrive rendering, the backing-store clause carries
",cache=c" exactly when the cache field is some c and ",aio=a" exactly when
the aio field is some a (nothing when None); the device clause carries
",rotation_rate=1" exactly when the ssd flag is true; and the device type
is scsi-hd for the SCSI interface and ide-hd for IDE. -/
theorem c7_hd_drive_render (id : String) (interface : DiskInterface)
    (image_path : String) (readonly : Bool) (format : String) (ssd : Bool)
    (cache aio : Option String) :
    DiskDrive.as_options
      (.HdDrive id interface image_path readonly format ssd cache aio) =
      some ("-drive if=none,file=" ++ image_path ++ ",format=" ++ format
        ++ ",id=vm." ++ id ++ ".drive,readonly=" ++ bool_to_qemu readonly
        ++ (match cache with | some c => ",cache=" ++ c | none => "")
        ++ (match aio with | some a => ",aio=" ++ a | none => "")
        ++ (match interface with
            | .Ide => " -device ide-hd,"
            | .Scsi => " -device scsi-hd,")
        ++ "id=vm." ++ id ++ ",drive=vm." ++ id ++ ".drive"
        ++ (if ssd then ",rotation_rate=1" else "")) :=
  hd_drive_shape id interface image_path readonly format ssd cache aio

/-- C8: every boolean option value is rendered through `bool_to_qemu`,
whose only outputs are the tokens "on" and "off": chipset acpi/usb/hmat,
the drive readonly flag and the VGPU ramfb flag all serialize that way. -/
theorem c8_bool_serialization :
    (bool_to_qemu true = "on") ∧
    (bool_to_qemu false = "off") ∧
    (∀ b, bool_to_qemu b = "on" ∨ bool_to_qemu b = "off") ∧
    (∀ acpi usb, MachineType.as_options (.Pc acpi usb) =
      "-machine pc,acpi=" ++ bool_to_qemu acpi ++ ",usb=" ++ bool_to_qemu usb) ∧
    (∀ acpi usb hmat, MachineType.as_options (.Q35 acpi usb hmat) =
      "-machine q35,acpi=" ++ bool_to_qemu acpi ++ ",usb=" ++ bool_to_qemu usb
        ++ ",hmat=" ++ bool_to_qemu hmat
        ++ " -device ioh3420,id=vm.pcie_root,slot=0,bus=pcie.0") ∧
    (∀ id interface image_path readonly format ssd cache aio,
      DiskDrive.as_options
        (.HdDrive id interface image_path readonly format ssd cache aio) =
        some ("-drive if=none,file=" ++ image_path ++ ",format=" ++ format
          ++ ",id=vm." ++ id ++ ".drive,readonly=" ++ bool_to_qemu readonly
          ++ (match cache with | some c => ",cache=" ++ c | none => "")
          ++ (match aio with | some a => ",aio=" ++ a | none => "")
          ++ (match interface with
              | .Ide => " -device ide-hd,"
              | .Scsi => " -device scsi-hd,")
          ++ "id=vm." ++ id ++ ",drive=vm." ++ id ++ ".drive"
          ++ (if ssd then ",rotation_rate=1" else ""))) ∧
    (∀ uuid use_ramfb, GraphicsAdapter.as_options
        (.VgpuVga uuid use_ramfb none none none none) =
      some ("-device vfio-pci-nohotplug,sysfsdev="
        ++ ("/sys/bus/mdev/devices/" ++ uuid)
        ++ ",display=on,ramfb=" ++ bool_to_qemu use_ramfb
        ++ ",id=vm.vgpu,bus=vm.pcie_root,addr=0x0")) := by
  refine ⟨rfl, rfl, ?_, ?_, ?_, ?_, ?_⟩
  · intro b
    cases b
    · right
      rfl
    · left
      rfl
  · intro acpi usb
    rfl
  · intro acpi usb hmat
    rfl
  · intro id interface image_path readonly format ssd cache aio
    exact hd_drive_shape id interface image_path readonly format ssd cache aio
  · intro uuid use_ramfb
    rfl

/-- C9: when all four PCI spoof fields are present, the VGPU rendering
assigns the pci_device_id value to the x-pci-vendor-id key and the
pci_vendor_id value to the x-pci-device-id key (the vendor and device
values are exchanged), while sub-vendor and sub-device go to their own
keys. -/
theorem c9_vgpu_spoof_swap (uuid : String) (use_ramfb : Bool)
    (vendor device subvendor subdevice : String) :
    GraphicsAdapter.as_options
      (.VgpuVga uuid use_ramfb (some vendor) (some device)
        (some subvendor) (some subdevice)) =
      some ("-device vfio-pci-nohotplug,sysfsdev="
        ++ ("/sys/bus/mdev/devices/" ++ uuid)
        ++ ",display=on,ramfb=" ++ bool_to_qemu use_ramfb
        ++ ",id=vm.vgpu,bus=vm.pcie_root,addr=0x0,x-pci-vendor-id=" ++ device
        ++ ",x-pci-device-id=" ++ vendor
        ++ ",x-pci-sub-vendor-id=" ++ subvendor
        ++ ",x-pci-sub-device-id=" ++ subdevice) := by
  rfl

/-- C10: `set_name` performs no validation — for every string, including
one containing whitespace, it succeeds, replaces only the name, and a
subsequent successful compilation embeds that string verbatim in the name
fragment; so the no-whitespace invariant from construction is not preserved
by this mutator. -/
theorem c10_set_name_no_validation (vm : VirtualMachine) (n : String) :
    (vm.set_name n).name = n ∧
    (vm.set_name n).uuid = vm.uuid ∧
    (vm.set_name n).machine = vm.machine ∧
    (vm.set_name n).devices = vm.devices ∧
    (vm.set_name n).drives = vm.drives ∧
    (∀ mt, vm.machine = some mt →
      (∀ d ∈ vm.devices,
        d.validate (vm.set_name n) = true → (d.as_options).isSome = true) →
      (∀ d ∈ vm.drives,
        d.validate (vm.set_name n) = true → (d.as_options).isSome = true) →
      (vm.set_name n).to_arguments = .ok
        (["-nodefaults", "-accel kvm",
          "-name " ++ n ++ ",process=sunlight_" ++ n,
          mt.as_options]
          ++ vm.devices.map (rendered_entry (vm.set_name n))
          ++ vm.drives.map (rendered_entry (vm.set_name n)))) := by
  refine ⟨rfl, rfl, rfl, rfl, rfl, ?_⟩
  intro mt h1 h2 h3
  have hd := join_options_eq_map vm.devices (vm.set_name n) h2
  have hr := join_options_eq_map vm.drives (vm.set_name n) h3
  simp only [VirtualMachine.set_name, h1] at hd hr
  simp [VirtualMachine.to_arguments, VirtualMachine.set_name, h1, hd, hr]

/-- C10, witness: renaming `vm_basic` to a name containing a space
succeeds, and compilation embeds the whitespace-bearing name verbatim in
the name fragment. -/
theorem c10_set_name_no_validation_witness :
    (vm_basic.set_name "bad name").name = "bad name" ∧
    (vm_basic.set_name "bad name").to_arguments = .ok
      ["-nodefaults", "-accel kvm",
       "-name bad name,process=sunlight_bad name",
       "-machine q35,acpi=on,usb=on,hmat=off -device ioh3420,id=vm.pcie_root,slot=0,bus=pcie.0"] :=
  ⟨(c10_set_name_no_validation vm_basic "bad name").1, by
    have h := (c10_set_name_no_validation vm_basic "bad name").2.2.2.2.2
      (.Q35 true true false) rfl (by decide) (by decide)
    simpa using h⟩
